import Mathlib

/-!
# Verification of the Dashboard telemetry session engine

Shallow embedding of `wwwroot/js/Dashboard.js` (current revision: the one
with the client-side simulator, `saveRecentSession`, and flag-based
`checkForAlerts`).  JavaScript numbers are modelled as `JsNum`: either a
finite rational or one of the special values `NaN`, `Infinity`,
`-Infinity`.  Fields that may be absent (`undefined`) are modelled with
`Option`.  The mutable module-level variables of the script
(`isSessionActive`, `sessionStartTime`, `totalAlerts`, `sessionData`, the
chart arrays, `recentSessions`, `simulatorIntervalId`, `simulatorState`)
are collected in one state record `DashState`, and every function of the
script that mutates them becomes a state transformer.  Wall-clock reads
(`new Date()`, `performance.now()`) and `Math.random()` draws are passed
in as explicit parameters.
-/

namespace Dashboard

/-- A JavaScript number: a finite value (modelled as a rational, ignoring
binary floating-point rounding) or one of the special values. -/
inductive JsNum where
  | fin (q : ℚ)
  | nan
  | inf
  | ninf
deriving DecidableEq

/-- The source `Number.isFinite`. -/
def JsNum.isFiniteNum : JsNum → Bool
  | .fin _ => true
  | _ => false

/-- The source `Number.isFinite(x) ? x : 0`, the guard used in `saveRecentSession`. -/
def JsNum.finOrZero : JsNum → ℚ
  | .fin q => q
  | _ => 0

/-- JavaScript `+` on numbers: `NaN` is absorbing, `Infinity + -Infinity`
is `NaN`, the infinities absorb finite values. -/
def jsAdd : JsNum → JsNum → JsNum
  | .nan, _ => .nan
  | _, .nan => .nan
  | .inf, .ninf => .nan
  | .ninf, .inf => .nan
  | .inf, _ => .inf
  | _, .inf => .inf
  | .ninf, _ => .ninf
  | _, .ninf => .ninf
  | .fin a, .fin b => .fin (a + b)

/-- JavaScript division of a number by a nonnegative integer count
(the `/ sessionData.length` in the statistics code). -/
def jsDivNat : JsNum → Nat → JsNum
  | .nan, _ => .nan
  | .inf, _ => .inf
  | .ninf, _ => .ninf
  | .fin q, 0 => if q = 0 then .nan else if 0 < q then .inf else .ninf
  | .fin q, (n+1) => .fin (q / (n+1 : ℕ))

/-- Binary `Math.max`: `NaN` propagates, otherwise the larger value. -/
def jsMax : JsNum → JsNum → JsNum
  | .nan, _ => .nan
  | _, .nan => .nan
  | .inf, _ => .inf
  | _, .inf => .inf
  | .ninf, y => y
  | x, .ninf => x
  | .fin a, .fin b => .fin (max a b)

/-- The source `Math.max(...list)`: `Math.max()` of no arguments is `-Infinity`. -/
def jsMaxList (l : List JsNum) : JsNum := l.foldl jsMax .ninf

/-- An absent (`undefined`) field used in numeric context coerces to `NaN`. -/
def numOf (o : Option JsNum) : JsNum := o.getD .nan

/-- The `headMovement` record `{pitch, roll, yaw}` (degrees). -/
structure HeadMovement where
  pitch : ℚ
  roll : ℚ
  yaw : ℚ
deriving DecidableEq

/-- One raw telemetry message as delivered to `processSensorData`.
A field of `Option JsNum` is `some` exactly when the JavaScript value has
`typeof === 'number'`; `headMovement`/`alertTriggered` are `some` exactly
when present (truthy / not `undefined`). -/
structure SensorData where
  timestamp : Nat
  eyeBlinkRate : Option JsNum
  eyeClosureDuration : Option JsNum
  headMovement : Option HeadMovement
  drowsinessLevel : Option JsNum
  alertTriggered : Option Bool
  batteryLevel : Option JsNum
deriving DecidableEq

/-- A persisted summary of a completed session (`saveRecentSession`).
`avgBlinkRate` and `peakDrowsiness` are rationals because the source
stores `Number.isFinite(x) ? x : 0`, which is always finite. -/
structure SessionSummary where
  start : Nat
  endTime : Nat
  durationMs : Int
  totalAlerts : Nat
  avgBlinkRate : ℚ
  peakDrowsiness : ℚ
  points : Nat
deriving DecidableEq

/-- The generator-internal `simulatorState` object. -/
structure SimulatorState where
  lastBlinkMs : Nat
  blinkIntervalMs : Nat
  batteryLevel : ℚ
  tiltCooldown : Nat
  baseTilt : HeadMovement
deriving DecidableEq

/-- One point of the chart's parallel arrays (`labels`,
`datasets[0].data`, `datasets[1].data`): the rolling display window. -/
structure ChartPoint where
  label : Nat
  drowsiness : JsNum
  blinkRate : JsNum
deriving DecidableEq

/-- All mutable module-level state of the dashboard script, plus the
display fields written through the DOM (`avgBlinkRate`, `peakDrowsiness`,
`sessionDuration`, the latest-sample panel, the alert status panel), the
live configuration (`drowsinessThreshold` slider), and an environment
model of the interval timers scheduled via `setInterval` (`liveTimers`
holds the ids of the currently scheduled timers, `nextTimerId` the next
fresh id). -/
structure DashState where
  isSessionActive : Bool
  sessionStartTime : Option Nat
  totalAlerts : Nat
  sessionData : List SensorData
  chartData : List ChartPoint
  alertActive : Bool
  recentSessions : List SessionSummary
  simulatorIntervalId : Option Nat
  simulatorState : SimulatorState
  liveTimers : List Nat
  nextTimerId : Nat
  drowsinessThreshold : ℚ
  displayDurationMs : Option Int
  displayAvgBlinkRate : Option JsNum
  displayPeakDrowsiness : Option JsNum
  displayLatest : Option SensorData
deriving DecidableEq

/-- The source `simulatorState`'s initial value in the script. -/
def initSimulatorState : SimulatorState :=
  { lastBlinkMs := 0, blinkIntervalMs := 3000, batteryLevel := 100,
    tiltCooldown := 0, baseTilt := ⟨0, 0, 0⟩ }

/-- The module-level initial state (page load, before any event). -/
def initState : DashState :=
  { isSessionActive := false, sessionStartTime := none, totalAlerts := 0,
    sessionData := [], chartData := [], alertActive := false,
    recentSessions := [], simulatorIntervalId := none,
    simulatorState := initSimulatorState, liveTimers := [],
    nextTimerId := 1, drowsinessThreshold := 70,
    displayDurationMs := none, displayAvgBlinkRate := none,
    displayPeakDrowsiness := none, displayLatest := none }

/-- The acceptance condition of the validation guard at the top of
`processSensorData`: the raw value is present, `headMovement` is present,
and `eyeBlinkRate`/`drowsinessLevel` have `typeof === 'number'`. -/
def validSensorData : Option SensorData → Bool
  | none => false
  | some d => d.headMovement.isSome && d.eyeBlinkRate.isSome && d.drowsinessLevel.isSome

/-- The source `updateDashboardDisplays`: shows the latest sample's fields. -/
def updateDashboardDisplays (st : DashState) (d : SensorData) : DashState :=
  { st with displayLatest := some d }

/-- Projection of a sample onto the chart arrays. -/
def chartPoint (d : SensorData) : ChartPoint :=
  ⟨d.timestamp, numOf d.drowsinessLevel, numOf d.eyeBlinkRate⟩

/-- The body of `updateChart`: push the new point, then if the length
exceeds 20, `shift()` the oldest point off the front. -/
def chartPush (l : List ChartPoint) (p : ChartPoint) : List ChartPoint :=
  let l2 := l ++ [p]
  if l2.length > 20 then l2.drop 1 else l2

/-- The source `updateChart`. -/
def updateChart (st : DashState) (d : SensorData) : DashState :=
  { st with chartData := chartPush st.chartData (chartPoint d) }

/-- The source `triggerAlert`: increments `totalAlerts` and shows the alert panel. -/
def triggerAlert (st : DashState) : DashState :=
  { st with totalAlerts := st.totalAlerts + 1, alertActive := true }

/-- The source `clearAlert`: shows the all-clear panel. -/
def clearAlert (st : DashState) : DashState :=
  { st with alertActive := false }

/-- The source `checkForAlerts` (current revision): branches on the truthiness of
`data.alertTriggered` alone; an absent flag is `undefined`, hence falsy. -/
def checkForAlerts (st : DashState) (d : SensorData) : DashState :=
  if d.alertTriggered.getD false then triggerAlert st else clearAlert st

/-- The `reduce`-based blink-rate sum of the statistics code. -/
def blinkSum (l : List SensorData) : JsNum :=
  l.foldl (fun s d => jsAdd s (numOf d.eyeBlinkRate)) (.fin 0)

/-- The `Math.max(...sessionData.map(d => d.drowsinessLevel))` of the
statistics code. -/
def drowsyPeak (l : List SensorData) : JsNum :=
  jsMaxList (l.map fun d => numOf d.drowsinessLevel)

/-- The source `updateSessionStatistics`: no-op on an empty sample sequence,
otherwise recomputes duration, average blink rate and peak drowsiness
from the full sequence and writes them to the display. -/
def updateSessionStatistics (st : DashState) (now : Nat) : DashState :=
  if st.sessionData.length = 0 then st
  else
    { st with
      displayDurationMs := some ((now : Int) - (st.sessionStartTime.getD 0 : Nat)),
      displayAvgBlinkRate := some (jsDivNat (blinkSum st.sessionData) st.sessionData.length),
      displayPeakDrowsiness := some (drowsyPeak st.sessionData) }

/-- The source `processSensorData`: validate, then push to `sessionData`, update the
displays, the chart, the alert state and the running statistics. -/
def processSensorData (st : DashState) (raw : Option SensorData) (now : Nat) : DashState :=
  match raw with
  | none => st
  | some d =>
    if d.headMovement.isNone || d.eyeBlinkRate.isNone || d.drowsinessLevel.isNone then st
    else
      let st1 := { st with sessionData := st.sessionData ++ [d] }
      let st2 := updateDashboardDisplays st1 d
      let st3 := updateChart st2 d
      let st4 := checkForAlerts st3 d
      updateSessionStatistics st4 now

/-- The source `saveRecentSession`: record a summary of the ended session at the
front of `recentSessions`, truncated to 10 entries; no-op when there is
no start time or no accepted sample. -/
def saveRecentSession (st : DashState) (endTime : Nat) : DashState :=
  if st.sessionStartTime.isNone ∨ st.sessionData.length = 0 then st
  else
    let start := st.sessionStartTime.getD 0
    let summary : SessionSummary :=
      { start := start, endTime := endTime,
        durationMs := (endTime : Int) - (start : Nat),
        totalAlerts := st.totalAlerts,
        avgBlinkRate := (jsDivNat (blinkSum st.sessionData) st.sessionData.length).finOrZero,
        peakDrowsiness := (drowsyPeak st.sessionData).finOrZero,
        points := st.sessionData.length }
    { st with recentSessions := (summary :: st.recentSessions).take 10 }

/-- The source `startSimulator`: if an interval timer is already scheduled, return
immediately; otherwise reset the simulator state and schedule the
2-second tick timer. -/
def startSimulator (st : DashState) (nowMs : Nat) : DashState :=
  if st.simulatorIntervalId.isSome then st
  else
    { st with
      simulatorState :=
        { lastBlinkMs := nowMs,
          blinkIntervalMs := st.simulatorState.blinkIntervalMs,
          batteryLevel := 100, tiltCooldown := 0, baseTilt := ⟨0, 0, 0⟩ },
      simulatorIntervalId := some st.nextTimerId,
      liveTimers := st.nextTimerId :: st.liveTimers,
      nextTimerId := st.nextTimerId + 1 }

/-- The source `stopSimulator`: cancel the scheduled interval timer, if any. -/
def stopSimulator (st : DashState) : DashState :=
  match st.simulatorIntervalId with
  | some i => { st with liveTimers := st.liveTimers.erase i, simulatorIntervalId := none }
  | none => st

/-- The source `resetChart`. -/
def resetChart (st : DashState) : DashState :=
  { st with chartData := [] }

/-- The source `startSession`: activate, reset session accumulators, start the
simulator, clear the chart and blank the display fields. -/
def startSession (st : DashState) (now nowMs : Nat) : DashState :=
  let st1 := { st with isSessionActive := true, sessionStartTime := some now,
                       sessionData := [], totalAlerts := 0 }
  let st2 := startSimulator st1 nowMs
  let st3 := resetChart st2
  let st4 := { st3 with displayLatest := none, displayDurationMs := none,
                        displayAvgBlinkRate := none, displayPeakDrowsiness := none }
  clearAlert st4

/-- The source `stopSession`: deactivate, stop the simulator, save the summary. -/
def stopSession (st : DashState) (endTime : Nat) : DashState :=
  let st1 := { st with isSessionActive := false }
  let st2 := stopSimulator st1
  saveRecentSession st2 endTime

/-- The `Math.random()` draws consumed by one `simulatorTick` call, in
source order.  Each draw is a rational in `[0, 1)`. -/
structure TickRand where
  spikeRoll : ℚ
  cooldownRoll : ℚ
  axisRoll : ℚ
  signRoll : ℚ
  magRoll : ℚ
  noisePitch : ℚ
  noiseRoll : ℚ
  noiseYaw : ℚ
  blinkRoll : ℚ
  drowsyBase : ℚ
  drowsyBlink : ℚ
  drowsyTilt : ℚ
  batteryRoll : ℚ
deriving DecidableEq

/-- Every draw of a `TickRand` lies in `[0, 1)`, as `Math.random()`
guarantees. -/
def TickRand.valid (r : TickRand) : Prop :=
  0 ≤ r.spikeRoll ∧ r.spikeRoll < 1 ∧
  0 ≤ r.cooldownRoll ∧ r.cooldownRoll < 1 ∧
  0 ≤ r.axisRoll ∧ r.axisRoll < 1 ∧
  0 ≤ r.signRoll ∧ r.signRoll < 1 ∧
  0 ≤ r.magRoll ∧ r.magRoll < 1 ∧
  0 ≤ r.noisePitch ∧ r.noisePitch < 1 ∧
  0 ≤ r.noiseRoll ∧ r.noiseRoll < 1 ∧
  0 ≤ r.noiseYaw ∧ r.noiseYaw < 1 ∧
  0 ≤ r.blinkRoll ∧ r.blinkRoll < 1 ∧
  0 ≤ r.drowsyBase ∧ r.drowsyBase < 1 ∧
  0 ≤ r.drowsyBlink ∧ r.drowsyBlink < 1 ∧
  0 ≤ r.drowsyTilt ∧ r.drowsyTilt < 1 ∧
  0 ≤ r.batteryRoll ∧ r.batteryRoll < 1

instance (r : TickRand) : Decidable r.valid := by
  unfold TickRand.valid; infer_instance

/-- The source `simulatorTick`: one generator tick.  No-op while the session is
inactive.  Otherwise: blink-cycle timer, tilt-spike state machine,
observed head movement with noise, tilt-exceeded flag, drowsiness
heuristic, battery decay floored at 5, alert flag from the live
threshold, then the synthesized sample is routed through
`processSensorData`. -/
def simulatorTick (st : DashState) (r : TickRand) (now nowMs : Nat) : DashState :=
  if !st.isSessionActive then st
  else
    let sim0 := st.simulatorState
    let eyeClosedThisTick := decide (nowMs - sim0.lastBlinkMs ≥ sim0.blinkIntervalMs)
    let sim1 := if eyeClosedThisTick then { sim0 with lastBlinkMs := nowMs } else sim0
    let sim2 :=
      if sim1.tiltCooldown = 0 ∧ r.spikeRoll < 8/100 then
        let cooldown := 2 + (r.cooldownRoll * 2).floor.toNat
        let axisIdx := (r.axisRoll * 3).floor.toNat
        let sign : ℚ := if r.signRoll < 1/2 then 1 else -1
        let mag : ℚ := sign * (30 + r.magRoll * 20)
        let bt := sim1.baseTilt
        let bt2 :=
          if axisIdx = 0 then { bt with pitch := mag }
          else if axisIdx = 1 then { bt with roll := mag }
          else { bt with yaw := mag }
        { sim1 with tiltCooldown := cooldown, baseTilt := bt2 }
      else if sim1.tiltCooldown > 0 then
        let cd := sim1.tiltCooldown - 1
        if cd = 0 then { sim1 with tiltCooldown := 0, baseTilt := ⟨0, 0, 0⟩ }
        else { sim1 with tiltCooldown := cd }
      else sim1
    let headMovement : HeadMovement :=
      ⟨sim2.baseTilt.pitch + (r.noisePitch - 1/2) * 4,
       sim2.baseTilt.roll + (r.noiseRoll - 1/2) * 4,
       sim2.baseTilt.yaw + (r.noiseYaw - 1/2) * 4⟩
    let tiltExceeded : Bool :=
      decide (max |headMovement.pitch| (max |headMovement.roll| |headMovement.yaw|) > 30)
    let baselineBlink : ℚ := 15 + r.blinkRoll * 6
    let eyeBlinkRate : ℚ := if eyeClosedThisTick then 20 else baselineBlink
    let d0 : ℚ := 35 + r.drowsyBase * 15
    let d1 : ℚ := if eyeClosedThisTick then d0 + (20 + r.drowsyBlink * 10) else d0
    let d2 : ℚ := if tiltExceeded then d1 + (20 + r.drowsyTilt * 15) else d1
    let drowsinessLevel : ℚ := max 0 (min 100 d2)
    let sim3 := { sim2 with
      batteryLevel := max 5 (sim2.batteryLevel - (15/100 + r.batteryRoll * (1/10))) }
    let alertTriggered : Bool :=
      decide (drowsinessLevel ≥ st.drowsinessThreshold) || tiltExceeded
    let simulated : SensorData :=
      { timestamp := now,
        eyeBlinkRate := some (.fin eyeBlinkRate),
        eyeClosureDuration := some (.fin (if eyeClosedThisTick then 1/5 else 0)),
        headMovement := some headMovement,
        drowsinessLevel := some (.fin drowsinessLevel),
        alertTriggered := some alertTriggered,
        batteryLevel := some (.fin sim3.batteryLevel) }
    processSensorData { st with simulatorState := sim3 } (some simulated) now

/-- The discrete events driving the dashboard: user commands, generator
timer ticks, and transport deliveries (the SignalR handler, which
forwards to `processSensorData` only while the session is active). -/
inductive Event where
  | userStart (now nowMs : Nat)
  | userStop (endTime : Nat)
  | tick (r : TickRand) (now nowMs : Nat)
  | sensor (raw : Option SensorData) (now : Nat)

/-- One event handler dispatch. -/
def step (st : DashState) : Event → DashState
  | .userStart now nowMs => startSession st now nowMs
  | .userStop e => stopSession st e
  | .tick r now nowMs => simulatorTick st r now nowMs
  | .sensor raw now => if st.isSessionActive then processSensorData st raw now else st

/-- The state after a sequence of events from page load. -/
def runEvents (evs : List Event) : DashState := evs.foldl step initState

/-- What sits in the persisted `recentSessions` slot, as seen through
`localStorage.getItem` and `JSON.parse`: absent (or empty string, which
the truthiness test also treats as absent), a document that parses to an
array of summaries, a document that parses to some non-array value, or
malformed text on which `JSON.parse` throws. -/
inductive StoredDoc where
  | arr (l : List SessionSummary)
  | nonArr
  | bad
deriving DecidableEq

/-- The source `loadRecentSessions`: the `try` block reads the slot, parses it
(`.bad` throws, modelled in `Except`), and resets any non-array value to
`[]`; the `catch` turns a thrown error into `[]`. -/
def loadRecentSessions (slot : Option StoredDoc) : List SessionSummary :=
  let attempt : Except Unit (List SessionSummary) :=
    match slot with
    | none => .ok []
    | some .bad => .error ()
    | some (.arr l) => .ok l
    | some .nonArr => .ok []
  match attempt with
  | .ok l => l
  | .error _ => []

/-- A concrete persisted summary. -/
def demoSummary : SessionSummary :=
  { start := 0, endTime := 5, durationMs := 5, totalAlerts := 0,
    avgBlinkRate := 12, peakDrowsiness := 40, points := 1 }

/-- The timer bookkeeping invariant: the scheduled interval timers are
exactly the one recorded in `simulatorIntervalId`, if any. -/
def timerInv (st : DashState) : Prop :=
  st.liveTimers = (match st.simulatorIntervalId with
    | some i => [i]
    | none => [])

/-- A well-formed sample used in concrete witnesses. -/
def demoSample : SensorData :=
  { timestamp := 1000,
    eyeBlinkRate := some (.fin 12),
    eyeClosureDuration := some (.fin 1),
    headMovement := some ⟨1, 2, 3⟩,
    drowsinessLevel := some (.fin 40),
    alertTriggered := some false,
    batteryLevel := some (.fin 90) }

/-- A sample whose `eyeBlinkRate` is `Infinity`: of number type
(`typeof === 'number'`), but not a finite number. -/
def nonFiniteSample : SensorData :=
  { demoSample with eyeBlinkRate := some .inf }

/-- A sample from a legacy producer: `alertTriggered` is absent while
`drowsinessLevel` is high. -/
def absentFlagSample : SensorData :=
  { demoSample with alertTriggered := none, drowsinessLevel := some (.fin 90) }

/-- A concrete active session holding one accepted sample. -/
def activeOneSample : DashState :=
  { initState with isSessionActive := true, sessionStartTime := some 0,
                   sessionData := [demoSample] }

/-- A concrete active session with no accepted sample. -/
def activeNoSample : DashState :=
  { initState with isSessionActive := true, sessionStartTime := some 0 }

/-- A sample with finite blink rate and drowsiness given by a pair of
rationals; used to quantify over accepted-sample sequences. -/
def mkFinSample (q : ℚ × ℚ) : SensorData :=
  { demoSample with eyeBlinkRate := some (.fin q.1), drowsinessLevel := some (.fin q.2) }

/-- The spec's fixed statistics example: samples (blink 10, drowsy 20)
and (blink 20, drowsy 80). -/
def demoStatsState : DashState :=
  { initState with sessionData := [(10, 20), (20, 80)].map mkFinSample }

/-- A concrete draw of all thirteen `Math.random()` values of one tick. -/
def zeroRand : TickRand :=
  { spikeRoll := 0, cooldownRoll := 0, axisRoll := 0, signRoll := 0, magRoll := 0,
    noisePitch := 0, noiseRoll := 0, noiseYaw := 0, blinkRoll := 0, drowsyBase := 0,
    drowsyBlink := 0, drowsyTilt := 0, batteryRoll := 0 }

/-! ## Projection lemmas

Routine facts about which state fields each operation touches. -/

@[simp] lemma updateSessionStatistics_sessionData (st : DashState) (now : Nat) :
    (updateSessionStatistics st now).sessionData = st.sessionData := by
  unfold updateSessionStatistics; split <;> rfl

@[simp] lemma updateSessionStatistics_totalAlerts (st : DashState) (now : Nat) :
    (updateSessionStatistics st now).totalAlerts = st.totalAlerts := by
  unfold updateSessionStatistics; split <;> rfl

@[simp] lemma updateSessionStatistics_recentSessions (st : DashState) (now : Nat) :
    (updateSessionStatistics st now).recentSessions = st.recentSessions := by
  unfold updateSessionStatistics; split <;> rfl

@[simp] lemma updateSessionStatistics_chartData (st : DashState) (now : Nat) :
    (updateSessionStatistics st now).chartData = st.chartData := by
  unfold updateSessionStatistics; split <;> rfl

@[simp] lemma updateSessionStatistics_simulatorState (st : DashState) (now : Nat) :
    (updateSessionStatistics st now).simulatorState = st.simulatorState := by
  unfold updateSessionStatistics; split <;> rfl

@[simp] lemma updateSessionStatistics_simulatorIntervalId (st : DashState) (now : Nat) :
    (updateSessionStatistics st now).simulatorIntervalId = st.simulatorIntervalId := by
  unfold updateSessionStatistics; split <;> rfl

@[simp] lemma updateSessionStatistics_liveTimers (st : DashState) (now : Nat) :
    (updateSessionStatistics st now).liveTimers = st.liveTimers := by
  unfold updateSessionStatistics; split <;> rfl

@[simp] lemma updateSessionStatistics_isSessionActive (st : DashState) (now : Nat) :
    (updateSessionStatistics st now).isSessionActive = st.isSessionActive := by
  unfold updateSessionStatistics; split <;> rfl

@[simp] lemma updateSessionStatistics_alertActive (st : DashState) (now : Nat) :
    (updateSessionStatistics st now).alertActive = st.alertActive := by
  unfold updateSessionStatistics; split <;> rfl

@[simp] lemma checkForAlerts_sessionData (st : DashState) (d : SensorData) :
    (checkForAlerts st d).sessionData = st.sessionData := by
  unfold checkForAlerts triggerAlert clearAlert; split <;> rfl

@[simp] lemma checkForAlerts_recentSessions (st : DashState) (d : SensorData) :
    (checkForAlerts st d).recentSessions = st.recentSessions := by
  unfold checkForAlerts triggerAlert clearAlert; split <;> rfl

@[simp] lemma checkForAlerts_chartData (st : DashState) (d : SensorData) :
    (checkForAlerts st d).chartData = st.chartData := by
  unfold checkForAlerts triggerAlert clearAlert; split <;> rfl

@[simp] lemma checkForAlerts_simulatorState (st : DashState) (d : SensorData) :
    (checkForAlerts st d).simulatorState = st.simulatorState := by
  unfold checkForAlerts triggerAlert clearAlert; split <;> rfl

@[simp] lemma checkForAlerts_simulatorIntervalId (st : DashState) (d : SensorData) :
    (checkForAlerts st d).simulatorIntervalId = st.simulatorIntervalId := by
  unfold checkForAlerts triggerAlert clearAlert; split <;> rfl

@[simp] lemma checkForAlerts_liveTimers (st : DashState) (d : SensorData) :
    (checkForAlerts st d).liveTimers = st.liveTimers := by
  unfold checkForAlerts triggerAlert clearAlert; split <;> rfl

@[simp] lemma checkForAlerts_isSessionActive (st : DashState) (d : SensorData) :
    (checkForAlerts st d).isSessionActive = st.isSessionActive := by
  unfold checkForAlerts triggerAlert clearAlert; split <;> rfl

@[simp] lemma checkForAlerts_sessionStartTime (st : DashState) (d : SensorData) :
    (checkForAlerts st d).sessionStartTime = st.sessionStartTime := by
  unfold checkForAlerts triggerAlert clearAlert; split <;> rfl

lemma checkForAlerts_totalAlerts (st : DashState) (d : SensorData) :
    (checkForAlerts st d).totalAlerts =
      st.totalAlerts + (if d.alertTriggered.getD false then 1 else 0) := by
  unfold checkForAlerts triggerAlert clearAlert; split <;> simp

lemma checkForAlerts_alertActive (st : DashState) (d : SensorData) :
    (checkForAlerts st d).alertActive = d.alertTriggered.getD false := by
  unfold checkForAlerts triggerAlert clearAlert; split <;> simp_all

/-- When validation passes, `processSensorData` runs its accept path. -/
lemma processSensorData_of_valid (st : DashState) (d : SensorData) (now : Nat)
    (hv : validSensorData (some d) = true) :
    processSensorData st (some d) now =
      updateSessionStatistics
        (checkForAlerts
          (updateChart
            (updateDashboardDisplays { st with sessionData := st.sessionData ++ [d] } d) d) d)
        now := by
  simp only [validSensorData, Bool.and_eq_true] at hv
  obtain ⟨⟨h1, h2⟩, h3⟩ := hv
  unfold processSensorData
  simp [Option.isNone_iff_eq_none, Option.isSome_iff_ne_none.mp h1,
    Option.isSome_iff_ne_none.mp h2, Option.isSome_iff_ne_none.mp h3]

/-- When validation fails, `processSensorData` leaves the whole state
unchanged. -/
lemma processSensorData_of_invalid (st : DashState) (raw : Option SensorData) (now : Nat)
    (hv : validSensorData raw = false) :
    processSensorData st raw now = st := by
  cases raw with
  | none => rfl
  | some d =>
    simp only [validSensorData, Bool.and_eq_false_iff] at hv
    have hcond : (d.headMovement.isNone || d.eyeBlinkRate.isNone || d.drowsinessLevel.isNone)
        = true := by
      rcases hv with (h | h) | h
      · have hm : d.headMovement = none := Option.not_isSome_iff_eq_none.mp (by simp [h])
        simp [Option.isNone_iff_eq_none, hm]
      · have hm : d.eyeBlinkRate = none := Option.not_isSome_iff_eq_none.mp (by simp [h])
        simp [Option.isNone_iff_eq_none, hm]
      · have hm : d.drowsinessLevel = none := Option.not_isSome_iff_eq_none.mp (by simp [h])
        simp [Option.isNone_iff_eq_none, hm]
    unfold processSensorData
    simp [hcond]

@[simp] lemma stopSimulator_sessionData (st : DashState) :
    (stopSimulator st).sessionData = st.sessionData := by
  unfold stopSimulator; split <;> rfl

@[simp] lemma stopSimulator_sessionStartTime (st : DashState) :
    (stopSimulator st).sessionStartTime = st.sessionStartTime := by
  unfold stopSimulator; split <;> rfl

@[simp] lemma stopSimulator_recentSessions (st : DashState) :
    (stopSimulator st).recentSessions = st.recentSessions := by
  unfold stopSimulator; split <;> rfl

@[simp] lemma stopSimulator_totalAlerts (st : DashState) :
    (stopSimulator st).totalAlerts = st.totalAlerts := by
  unfold stopSimulator; split <;> rfl

@[simp] lemma stopSimulator_isSessionActive (st : DashState) :
    (stopSimulator st).isSessionActive = st.isSessionActive := by
  unfold stopSimulator; split <;> rfl

@[simp] lemma saveRecentSession_sessionData (st : DashState) (e : Nat) :
    (saveRecentSession st e).sessionData = st.sessionData := by
  unfold saveRecentSession; split <;> rfl

@[simp] lemma saveRecentSession_sessionStartTime (st : DashState) (e : Nat) :
    (saveRecentSession st e).sessionStartTime = st.sessionStartTime := by
  unfold saveRecentSession; split <;> rfl

@[simp] lemma saveRecentSession_isSessionActive (st : DashState) (e : Nat) :
    (saveRecentSession st e).isSessionActive = st.isSessionActive := by
  unfold saveRecentSession; split <;> rfl

@[simp] lemma saveRecentSession_totalAlerts (st : DashState) (e : Nat) :
    (saveRecentSession st e).totalAlerts = st.totalAlerts := by
  unfold saveRecentSession; split <;> rfl

/-! ## C1 -/

/-- C1 (amended): a raw input is appended to `sessionData` iff the raw
value is present, `headMovement` is present, and `eyeBlinkRate` and
`drowsinessLevel` are of JavaScript number type (`validSensorData`);
a rejected input leaves the entire state unchanged. -/
theorem processSensorData_accepts_iff (st : DashState) (raw : Option SensorData) (now : Nat) :
    (∀ d, raw = some d → validSensorData raw = true →
      (processSensorData st raw now).sessionData = st.sessionData ++ [d]) ∧
    (validSensorData raw = false → processSensorData st raw now = st) := by
  constructor
  · rintro d rfl hv
    rw [processSensorData_of_valid st d now hv]
    simp [updateChart, updateDashboardDisplays]
  · intro hv
    exact processSensorData_of_invalid st raw now hv

/-- Witness for the amended C1: a concrete valid sample is appended, and
a concrete invalid one (absent `headMovement`) changes nothing. -/
theorem processSensorData_accepts_iff_witness :
    (processSensorData initState (some demoSample) 2000).sessionData = [demoSample] ∧
    processSensorData initState (some { demoSample with headMovement := none }) 2000 =
      initState :=
  ⟨(processSensorData_accepts_iff initState (some demoSample) 2000).1 demoSample rfl (by decide),
   (processSensorData_accepts_iff initState
      (some { demoSample with headMovement := none }) 2000).2 (by decide)⟩

/-- C1, as stated, is false: a sample whose `eyeBlinkRate` is `Infinity`
is not a finite numeric value, yet `processSensorData` accepts it — the
`typeof === 'number'` guard does not test finiteness. -/
theorem processSensorData_accepts_nonfinite :
    (processSensorData initState (some nonFiniteSample) 2000).sessionData
        = [nonFiniteSample] ∧
    (numOf nonFiniteSample.eyeBlinkRate).isFiniteNum = false := by
  constructor
  · rw [processSensorData_of_valid initState nonFiniteSample 2000 (by decide)]
    simp [updateChart, updateDashboardDisplays, initState]
  · decide

/-! ## C2 -/

/-- C2: `stop()` on a session with no accepted sample records nothing;
with at least one accepted sample it records exactly one new summary at
history index 0, shifting prior entries down and truncating to 10. -/
theorem stopSession_history (st : DashState) (t e : Nat)
    (h : st.sessionStartTime = some t) :
    (st.sessionData = [] → (stopSession st e).recentSessions = st.recentSessions) ∧
    (st.sessionData ≠ [] →
      ∃ s : SessionSummary,
        (stopSession st e).recentSessions = (s :: st.recentSessions).take 10 ∧
        (stopSession st e).recentSessions.length = min (st.recentSessions.length + 1) 10) := by
  constructor
  · intro hemp
    unfold stopSession saveRecentSession
    simp [hemp]
  · intro hne
    have key : (stopSession st e).recentSessions =
        ({ start := t, endTime := e, durationMs := (e : Int) - (t : Int),
           totalAlerts := st.totalAlerts,
           avgBlinkRate := (jsDivNat (blinkSum st.sessionData) st.sessionData.length).finOrZero,
           peakDrowsiness := (drowsyPeak st.sessionData).finOrZero,
           points := st.sessionData.length } :: st.recentSessions).take 10 := by
      unfold stopSession saveRecentSession
      simp [h, List.length_eq_zero, hne]
    refine ⟨_, key, ?_⟩
    rw [key]
    simp [List.length_take]
    omega

/-- Witness for C2: a concrete zero-sample session leaves history
unchanged; a concrete one-sample session grows it to length 1. -/
theorem stopSession_history_witness :
    ((stopSession activeNoSample 5).recentSessions = activeNoSample.recentSessions) ∧
    (stopSession activeOneSample 5).recentSessions.length
      = min (activeOneSample.recentSessions.length + 1) 10 := by
  refine ⟨(stopSession_history activeNoSample 0 5 rfl).1 rfl, ?_⟩
  obtain ⟨s, hs, hlen⟩ := (stopSession_history activeOneSample 0 5 rfl).2 (by decide)
  exact hlen

/-! ## C3 -/

/-- C3 fails on the code: `stopSession` has no idle guard and
`saveRecentSession` neither clears `sessionData` nor checks
`isSessionActive`, so a second consecutive `stop()` records a duplicate
history entry: from a one-sample session, one stop leaves 1 history
entry, two stops leave 2. -/
theorem stopSession_double_adds_duplicate :
    (stopSession activeOneSample 5).recentSessions.length = 1 ∧
    (stopSession (stopSession activeOneSample 5) 7).recentSessions.length = 2 := by
  constructor <;> decide

/-! ## C4 -/

/-- One `chartPush` keeps the last `min (length + 1) 20` points. -/
lemma chartPush_sliding (l : List ChartPoint) (p : ChartPoint) (h : l.length ≤ 20) :
    chartPush l p = (l ++ [p]).drop (l.length + 1 - 20) ∧ (chartPush l p).length ≤ 20 := by
  unfold chartPush
  by_cases h20 : l.length = 20
  · have : (l ++ [p]).length > 20 := by simp [h20]
    simp only [this, if_pos]
    constructor
    · congr 1
      omega
    · simp [h20]
  · have hlt : l.length + 1 ≤ 20 := by omega
    have : ¬ (l ++ [p]).length > 20 := by simp; omega
    simp only [this, if_neg, not_false_iff]
    constructor
    · rw [Nat.sub_eq_zero_of_le hlt, List.drop_zero]
    · simp; omega

/-- Closed form of folding `chartPush`: the window holds the last 20
elements (all of them when fewer) of everything ever pushed. -/
lemma foldl_chartPush (ps : List ChartPoint) (l : List ChartPoint) (h : l.length ≤ 20) :
    ps.foldl chartPush l = (l ++ ps).drop (l.length + ps.length - 20) := by
  induction ps generalizing l with
  | nil =>
    simp [Nat.sub_eq_zero_of_le h]
  | cons p ps ih =>
    rw [List.foldl_cons]
    obtain ⟨hpush, hlen⟩ := chartPush_sliding l p h
    rw [hpush] at hlen ⊢
    rw [ih _ hlen]
    rw [← List.drop_append_of_le_length (by simp; omega)]
    rw [List.drop_drop]
    rw [List.append_assoc, List.singleton_append]
    congr 1
    simp [List.length_drop, List.length_append]
    omega

/-- C4: starting from an empty window, folding accepted samples through
`updateChart` never lets the window exceed 20 points, and pushing 25
samples leaves exactly the last 20 of their projections, oldest first. -/
theorem updateChart_window (ds : List SensorData) (st : DashState)
    (h0 : st.chartData = []) :
    (∀ k, ((ds.take k).foldl updateChart st).chartData.length ≤ 20) ∧
    (ds.length = 25 → (ds.foldl updateChart st).chartData = (ds.map chartPoint).drop 5) := by
  have hfold : ∀ (xs : List SensorData) (s : DashState),
      (xs.foldl updateChart s).chartData = (xs.map chartPoint).foldl chartPush s.chartData := by
    intro xs
    induction xs with
    | nil => intro s; simp
    | cons x xs ih =>
      intro s
      simp only [List.foldl_cons, List.map_cons]
      rw [ih]
      rfl
  constructor
  · intro k
    rw [hfold, h0, foldl_chartPush _ _ (by simp)]
    simp [List.length_drop]
    omega
  · intro h25
    rw [hfold, h0, foldl_chartPush _ _ (by simp)]
    simp [h25]

/-- Witness for C4: 25 concrete pushed samples leave the last 20
projections, and a concrete 23-sample prefix keeps the bound. -/
theorem updateChart_window_witness :
    (((List.replicate 25 demoSample).take 23).foldl updateChart
        initState).chartData.length ≤ 20 ∧
    ((List.replicate 25 demoSample).foldl updateChart initState).chartData
      = ((List.replicate 25 demoSample).map chartPoint).drop 5 :=
  ⟨(updateChart_window (List.replicate 25 demoSample) initState rfl).1 23,
   (updateChart_window (List.replicate 25 demoSample) initState rfl).2 (by decide)⟩

/-! ## C5 -/

/-- C5: an accepted sample with `alertTriggered == true` increments the
alert counter by exactly 1, one with `alertTriggered == false` by 0, and
the counter update is independent of the configured drowsiness
threshold. -/
theorem alert_counter_increment (st : DashState) (d : SensorData) (now : Nat) (t : ℚ)
    (hv : validSensorData (some d) = true) :
    (d.alertTriggered = some true →
      (processSensorData st (some d) now).totalAlerts = st.totalAlerts + 1) ∧
    (d.alertTriggered = some false →
      (processSensorData st (some d) now).totalAlerts = st.totalAlerts) ∧
    ((processSensorData { st with drowsinessThreshold := t } (some d) now).totalAlerts
      = (processSensorData st (some d) now).totalAlerts) := by
  have hv2 : validSensorData (some d) = true := hv
  rw [processSensorData_of_valid st d now hv]
  rw [processSensorData_of_valid { st with drowsinessThreshold := t } d now hv2]
  simp only [updateSessionStatistics_totalAlerts, checkForAlerts_totalAlerts,
    updateChart, updateDashboardDisplays]
  refine ⟨fun h => by simp [h], fun h => by simp [h], by trivial⟩

/-- Witness for C5: a concrete alert-flagged sample raises the counter
from 0 to 1; the concrete `demoSample` with `alertTriggered == false`
leaves it at 0; a different threshold changes nothing. -/
theorem alert_counter_increment_witness :
    ((processSensorData initState (some { demoSample with alertTriggered := some true })
        2000).totalAlerts = initState.totalAlerts + 1) ∧
    ((processSensorData initState (some demoSample) 2000).totalAlerts
        = initState.totalAlerts) ∧
    ((processSensorData { initState with drowsinessThreshold := 10 } (some demoSample)
        2000).totalAlerts = (processSensorData initState (some demoSample) 2000).totalAlerts) :=
  ⟨(alert_counter_increment initState { demoSample with alertTriggered := some true }
      2000 10 (by decide)).1 rfl,
   (alert_counter_increment initState demoSample 2000 10 (by decide)).2.1 rfl,
   (alert_counter_increment initState demoSample 2000 10 (by decide)).2.2⟩

/-! ## C6 -/

/-- C6, as stated, is false: with `alertTriggered` absent and
`drowsinessLevel` 90 at or above the configured threshold 50, the code
still takes the `clearAlert` branch — `checkForAlerts` tests only the
truthiness of `data.alertTriggered` and never falls back to a threshold
comparison. -/
theorem checkForAlerts_absent_flag_cex :
    absentFlagSample.alertTriggered = none ∧
    absentFlagSample.drowsinessLevel = some (.fin 90) ∧
    ((90 : ℚ) ≥ ({ initState with drowsinessThreshold := 50 } : DashState).drowsinessThreshold) ∧
    (checkForAlerts { initState with drowsinessThreshold := 50 }
        absentFlagSample).alertActive = false ∧
    (checkForAlerts { initState with drowsinessThreshold := 50 }
        absentFlagSample).totalAlerts
      = ({ initState with drowsinessThreshold := 50 } : DashState).totalAlerts := by
  refine ⟨rfl, rfl, by decide, by decide, by decide⟩

/-- C6 (amended): when `alertTriggered` is absent, the alert decision is
always Clear and the counter never increments, regardless of
`drowsinessLevel` and of the configured threshold. -/
theorem checkForAlerts_absent_flag (st : DashState) (d : SensorData)
    (h : d.alertTriggered = none) :
    (checkForAlerts st d).alertActive = false ∧
    (checkForAlerts st d).totalAlerts = st.totalAlerts := by
  rw [checkForAlerts_alertActive, checkForAlerts_totalAlerts]
  simp [h]

/-- Witness for the amended C6 at a concrete legacy sample. -/
theorem checkForAlerts_absent_flag_witness :
    (checkForAlerts initState absentFlagSample).alertActive = false ∧
    (checkForAlerts initState absentFlagSample).totalAlerts = initState.totalAlerts :=
  checkForAlerts_absent_flag initState absentFlagSample rfl

/-! ## C7 -/

lemma foldl_jsAdd_fin (l : List ℚ) (a : ℚ) :
    l.foldl (fun s q => jsAdd s (JsNum.fin q)) (.fin a) = .fin (a + l.sum) := by
  induction l generalizing a with
  | nil => simp
  | cons x xs ih =>
    rw [List.foldl_cons]
    have hstep : jsAdd (JsNum.fin a) (JsNum.fin x) = JsNum.fin (a + x) := rfl
    rw [hstep, ih, List.sum_cons, add_assoc]

lemma foldl_jsMax_fin_pair (l : List (ℚ × ℚ)) (m : ℚ) :
    l.foldl (fun s x => jsMax s (JsNum.fin x.2)) (.fin m)
      = .fin (l.foldl (fun s x => max s x.2) m) := by
  induction l generalizing m with
  | nil => simp
  | cons x xs ih =>
    rw [List.foldl_cons]
    have hstep : jsMax (JsNum.fin m) (JsNum.fin x.2) = JsNum.fin (max m x.2) := rfl
    rw [hstep, ih, List.foldl_cons]

lemma le_foldl_max (m : ℚ) (l : List ℚ) : m ≤ l.foldl max m := by
  induction l generalizing m with
  | nil => simp
  | cons x xs ih => exact le_trans (le_max_left m x) (ih (max m x))

lemma foldl_max_mem (m : ℚ) (l : List ℚ) : l.foldl max m ∈ m :: l := by
  induction l generalizing m with
  | nil => simp
  | cons x xs ih =>
    rw [List.foldl_cons]
    rcases List.mem_cons.mp (ih (max m x)) with h | h
    · rw [h]
      rcases max_choice m x with hm | hm
      · rw [hm]; exact List.mem_cons_self _ _
      · rw [hm]; exact List.mem_cons.mpr (Or.inr (List.mem_cons_self _ _))
    · exact List.mem_cons.mpr (Or.inr (List.mem_cons.mpr (Or.inr h)))

lemma forall_le_foldl_max (m : ℚ) (l : List ℚ) : ∀ x ∈ l, x ≤ l.foldl max m := by
  induction l generalizing m with
  | nil => simp
  | cons y ys ih =>
    intro x hx
    rw [List.foldl_cons]
    rcases List.mem_cons.mp hx with rfl | hx
    · exact le_trans (le_max_right m x) (le_foldl_max _ _)
    · exact ih (max m y) x hx

/-- The source `blinkSum` over finite samples is the finite sum of blink rates. -/
lemma blinkSum_fin (qs : List (ℚ × ℚ)) :
    blinkSum (qs.map mkFinSample) = .fin ((qs.map Prod.fst).sum) := by
  unfold blinkSum
  rw [List.foldl_map]
  have : (fun (s : JsNum) (q : ℚ × ℚ) => jsAdd s (numOf (mkFinSample q).eyeBlinkRate))
      = fun s q => jsAdd s (.fin q.1) := by
    funext s q; rfl
  rw [this]
  rw [← List.foldl_map Prod.fst (fun s q => jsAdd s (.fin q))]
  rw [foldl_jsAdd_fin]
  rw [zero_add]

/-- C7: over any non-empty accepted-sample sequence with finite values,
the displayed average blink rate is the arithmetic mean of the blink
rates and the displayed peak drowsiness is the maximum drowsiness. -/
theorem session_statistics_avg_peak (qs : List (ℚ × ℚ)) (st : DashState) (now : Nat)
    (h : qs ≠ []) :
    ((updateSessionStatistics { st with sessionData := qs.map mkFinSample }
        now).displayAvgBlinkRate
      = some (.fin ((qs.map Prod.fst).sum / (qs.length : ℚ)))) ∧
    (∃ p : ℚ,
      (updateSessionStatistics { st with sessionData := qs.map mkFinSample }
          now).displayPeakDrowsiness = some (.fin p) ∧
      p ∈ qs.map Prod.snd ∧ ∀ x ∈ qs.map Prod.snd, x ≤ p) := by
  cases qs with
  | nil => exact absurd rfl h
  | cons q rest =>
    have hlen : ((q :: rest).map mkFinSample).length = rest.length + 1 := by simp
    unfold updateSessionStatistics
    rw [if_neg (by simp)]
    constructor
    · simp only [blinkSum_fin, hlen]
      show some (jsDivNat (JsNum.fin (((q :: rest).map Prod.fst).sum)) (rest.length + 1)) = _
      unfold jsDivNat
      simp [div_eq_div_iff]
    · refine ⟨(rest.map Prod.snd).foldl max q.2, ?_, ?_, ?_⟩
      · show some (drowsyPeak ((q :: rest).map mkFinSample)) = _
        unfold drowsyPeak jsMaxList
        rw [List.map_map]
        have hfun : ((fun d : SensorData => numOf d.drowsinessLevel) ∘ mkFinSample)
            = fun x : ℚ × ℚ => JsNum.fin x.2 := by
          funext x; rfl
        rw [hfun, List.map_cons, List.foldl_cons]
        have hhead : jsMax JsNum.ninf (JsNum.fin q.2) = JsNum.fin q.2 := rfl
        rw [hhead]
        simp only [List.foldl_map]
        exact congrArg some (foldl_jsMax_fin_pair rest q.2)
      · rw [List.map_cons]
        exact foldl_max_mem q.2 (rest.map Prod.snd)
      · intro x hx
        rw [List.map_cons] at hx
        rcases List.mem_cons.mp hx with rfl | hx2
        · exact le_foldl_max _ _
        · exact forall_le_foldl_max _ _ x hx2

/-- Witness for C7: the fixed sequence (blink 10, drowsy 20),
(blink 20, drowsy 80) yields average 15 and peak 80. -/
theorem session_statistics_avg_peak_witness :
    (updateSessionStatistics demoStatsState 0).displayAvgBlinkRate = some (.fin 15) ∧
    (updateSessionStatistics demoStatsState 0).displayPeakDrowsiness = some (.fin 80) := by
  have h := session_statistics_avg_peak [(10, 20), (20, 80)] initState 0 (by decide)
  constructor
  · have h1 := h.1
    norm_num at h1
    exact h1
  · obtain ⟨p, hd, hmem, hub⟩ := h.2
    have h80 : (80 : ℚ) ≤ p := hub 80 (by simp)
    have : p = 80 := by
      rcases (by simpa using hmem : p = 20 ∨ p = 80) with rfl | rfl
      · exact absurd h80 (by norm_num)
      · rfl
    rw [this] at hd
    exact hd

/-! ## C8 -/

lemma processSensorData_simulatorState (st : DashState) (raw : Option SensorData) (now : Nat) :
    (processSensorData st raw now).simulatorState = st.simulatorState := by
  unfold processSensorData
  cases raw with
  | none => rfl
  | some d =>
    dsimp only
    split
    · rfl
    · simp [updateChart, updateDashboardDisplays]

/-- The battery update of one `simulatorTick`: floored decay while the
session is active, untouched otherwise. -/
lemma simulatorTick_batteryLevel (st : DashState) (r : TickRand) (now nowMs : Nat) :
    (simulatorTick st r now nowMs).simulatorState.batteryLevel =
      if st.isSessionActive then
        max 5 (st.simulatorState.batteryLevel - (15/100 + r.batteryRoll * (1/10)))
      else st.simulatorState.batteryLevel := by
  by_cases hA : st.isSessionActive
  · unfold simulatorTick
    rw [hA]
    simp only [Bool.not_true, Bool.false_eq_true, if_false, if_pos,
      processSensorData_simulatorState]
    split_ifs <;> rfl
  · unfold simulatorTick
    simp [hA]

/-- Along a run of ticks from a state with battery at least 5, every
intermediate battery level is at least 5 and the trace is
non-increasing. -/
lemma scanl_battery (ticks : List (TickRand × Nat × Nat)) (s0 : DashState)
    (h5 : 5 ≤ s0.simulatorState.batteryLevel)
    (hv : ∀ x ∈ ticks, 0 ≤ x.1.batteryRoll) :
    (∀ s ∈ List.scanl (fun s x => simulatorTick s x.1 x.2.1 x.2.2) s0 ticks,
      5 ≤ s.simulatorState.batteryLevel) ∧
    List.Chain' (fun a b => b.simulatorState.batteryLevel ≤ a.simulatorState.batteryLevel)
      (List.scanl (fun s x => simulatorTick s x.1 x.2.1 x.2.2) s0 ticks) := by
  induction ticks generalizing s0 with
  | nil =>
    rw [List.scanl_nil]
    exact ⟨by intro s hs; rw [List.mem_singleton] at hs; rw [hs]; exact h5,
      List.chain'_singleton s0⟩
  | cons x xs ih =>
    rw [List.scanl_cons]
    have hd : 0 ≤ 15/100 + x.1.batteryRoll * (1/10) := by
      have := hv x (List.mem_cons_self x xs)
      nlinarith
    have hstep5 : 5 ≤ (simulatorTick s0 x.1 x.2.1 x.2.2).simulatorState.batteryLevel := by
      rw [simulatorTick_batteryLevel]
      split
      · exact le_max_left _ _
      · exact h5
    have hstepLe : (simulatorTick s0 x.1 x.2.1 x.2.2).simulatorState.batteryLevel
        ≤ s0.simulatorState.batteryLevel := by
      rw [simulatorTick_batteryLevel]
      split
      · exact max_le h5 (by linarith)
      · exact le_refl _
    obtain ⟨ihmem, ihchain⟩ :=
      ih (simulatorTick s0 x.1 x.2.1 x.2.2) hstep5
        (fun y hy => hv y (List.mem_cons.mpr (Or.inr hy)))
    constructor
    · intro s hs
      rcases List.mem_cons.mp hs with rfl | hs2
      · exact h5
      · exact ihmem s hs2
    · rw [List.singleton_append, List.chain'_cons']
      refine ⟨?_, ihchain⟩
      intro h hh
      have hhead : (List.scanl (fun s x => simulatorTick s x.1 x.2.1 x.2.2)
          (simulatorTick s0 x.1 x.2.1 x.2.2) xs).head?
          = some (simulatorTick s0 x.1 x.2.1 x.2.2) := by
        cases xs <;> simp [List.scanl]
      rw [hhead] at hh
      rw [Option.mem_some_iff] at hh
      rw [← hh]
      exact hstepLe

/-- C8: starting a session (with no stale timer) resets the battery to
100; each tick of an active session decreases it by an amount in
[0.15, 0.25) floored at 5; along any run of ticks the battery trace is
non-increasing and never below 5. -/
theorem simulator_battery_invariant (st : DashState) (now nowMs : Nat)
    (hId : st.simulatorIntervalId = none)
    (ticks : List (TickRand × Nat × Nat))
    (hv : ∀ x ∈ ticks, x.1.valid) :
    (startSession st now nowMs).simulatorState.batteryLevel = 100 ∧
    (∀ x ∈ ticks, ∀ s : DashState, s.isSessionActive = true →
      ∃ d : ℚ, 15/100 ≤ d ∧ d < 25/100 ∧
        (simulatorTick s x.1 x.2.1 x.2.2).simulatorState.batteryLevel
          = max 5 (s.simulatorState.batteryLevel - d)) ∧
    (∀ s ∈ List.scanl (fun s x => simulatorTick s x.1 x.2.1 x.2.2)
        (startSession st now nowMs) ticks, 5 ≤ s.simulatorState.batteryLevel) ∧
    List.Chain' (fun a b => b.simulatorState.batteryLevel ≤ a.simulatorState.batteryLevel)
      (List.scanl (fun s x => simulatorTick s x.1 x.2.1 x.2.2)
        (startSession st now nowMs) ticks) := by
  have hbatt : (startSession st now nowMs).simulatorState.batteryLevel = 100 := by
    unfold startSession startSimulator resetChart clearAlert
    simp [hId]
  have hroll : ∀ x ∈ ticks, 0 ≤ x.1.batteryRoll := by
    intro x hx
    exact ((hv x hx).2.2.2.2.2.2.2.2.2.2.2.2.2.2.2.2.2.2.2.2.2.2.2.2).1
  obtain ⟨hmem, hchain⟩ :=
    scanl_battery ticks (startSession st now nowMs) (by rw [hbatt]; norm_num) hroll
  refine ⟨hbatt, ?_, hmem, hchain⟩
  intro x hx s hA
  obtain ⟨h0, h1⟩ := ((hv x hx).2.2.2.2.2.2.2.2.2.2.2.2.2.2.2.2.2.2.2.2.2.2.2.2)
  refine ⟨15/100 + x.1.batteryRoll * (1/10), by nlinarith, by nlinarith, ?_⟩
  rw [simulatorTick_batteryLevel, if_pos hA]

/-- Witness for C8 on a concrete one-tick run: battery resets to 100 at
start, the concrete tick decays it by a bounded floored amount, the
post-tick level stays at least 5, and the two-state trace is
non-increasing. -/
theorem simulator_battery_invariant_witness :
    (startSession initState 0 0).simulatorState.batteryLevel = 100 ∧
    (∃ d : ℚ, 15/100 ≤ d ∧ d < 25/100 ∧
      (simulatorTick (startSession initState 0 0) zeroRand 2000 2000).simulatorState.batteryLevel
        = max 5 ((startSession initState 0 0).simulatorState.batteryLevel - d)) ∧
    5 ≤ (simulatorTick (startSession initState 0 0) zeroRand
        2000 2000).simulatorState.batteryLevel ∧
    List.Chain' (fun a b => b.simulatorState.batteryLevel ≤ a.simulatorState.batteryLevel)
      (List.scanl (fun s x => simulatorTick s x.1 x.2.1 x.2.2)
        (startSession initState 0 0) [(zeroRand, 2000, 2000)]) := by
  have h := simulator_battery_invariant initState 0 0 rfl [(zeroRand, 2000, 2000)]
    (by intro x hx; rw [List.mem_singleton] at hx; rw [hx]; decide)
  have hmem : simulatorTick (startSession initState 0 0) zeroRand 2000 2000 ∈
      List.scanl (fun s x => simulatorTick s x.1 x.2.1 x.2.2)
        (startSession initState 0 0) [(zeroRand, 2000, 2000)] := by
    rw [List.scanl_cons, List.scanl_nil]
    simp
  refine ⟨h.1, ?_, h.2.2.1 _ hmem, h.2.2.2⟩
  exact h.2.1 (zeroRand, 2000, 2000) (List.mem_singleton.mpr rfl)
    (startSession initState 0 0) rfl

/-! ## C9 -/

/-- C9: `loadRecentSessions` is a total function of the persisted slot:
a well-formed persisted array is returned as-is, and every other content
(absent, non-array, or unparseable) degrades to the empty history —
never to a propagated error. -/
theorem loadRecentSessions_total (slot : Option StoredDoc) :
    (∀ l, slot = some (.arr l) → loadRecentSessions slot = l) ∧
    ((∀ l, slot ≠ some (.arr l)) → loadRecentSessions slot = []) := by
  constructor
  · rintro l rfl
    rfl
  · intro h
    match slot with
    | none => rfl
    | some .bad => rfl
    | some .nonArr => rfl
    | some (.arr l) => exact absurd rfl (h l)

/-- Witness for C9: a concrete well-formed array is returned, a concrete
corrupt slot loads as empty. -/
theorem loadRecentSessions_total_witness :
    loadRecentSessions (some (.arr [demoSummary])) = [demoSummary] ∧
    loadRecentSessions (some .bad) = [] :=
  ⟨(loadRecentSessions_total (some (.arr [demoSummary]))).1 [demoSummary] rfl,
   (loadRecentSessions_total (some .bad)).2 (by intro l h; simp at h)⟩

/-! ## C10 -/

@[simp] lemma saveRecentSession_liveTimers (st : DashState) (e : Nat) :
    (saveRecentSession st e).liveTimers = st.liveTimers := by
  unfold saveRecentSession; split <;> rfl

@[simp] lemma saveRecentSession_simulatorIntervalId (st : DashState) (e : Nat) :
    (saveRecentSession st e).simulatorIntervalId = st.simulatorIntervalId := by
  unfold saveRecentSession; split <;> rfl

lemma processSensorData_liveTimers (st : DashState) (raw : Option SensorData) (now : Nat) :
    (processSensorData st raw now).liveTimers = st.liveTimers := by
  unfold processSensorData
  cases raw with
  | none => rfl
  | some d =>
    dsimp only
    split
    · rfl
    · simp [updateChart, updateDashboardDisplays]

lemma processSensorData_simulatorIntervalId (st : DashState) (raw : Option SensorData)
    (now : Nat) :
    (processSensorData st raw now).simulatorIntervalId = st.simulatorIntervalId := by
  unfold processSensorData
  cases raw with
  | none => rfl
  | some d =>
    dsimp only
    split
    · rfl
    · simp [updateChart, updateDashboardDisplays]

lemma simulatorTick_liveTimers (st : DashState) (r : TickRand) (now nowMs : Nat) :
    (simulatorTick st r now nowMs).liveTimers = st.liveTimers := by
  unfold simulatorTick
  by_cases hA : st.isSessionActive <;> simp [hA, processSensorData_liveTimers]

lemma simulatorTick_simulatorIntervalId (st : DashState) (r : TickRand) (now nowMs : Nat) :
    (simulatorTick st r now nowMs).simulatorIntervalId = st.simulatorIntervalId := by
  unfold simulatorTick
  by_cases hA : st.isSessionActive <;> simp [hA, processSensorData_simulatorIntervalId]

/-- Every event handler preserves the timer bookkeeping invariant. -/
lemma step_timerInv (st : DashState) (ev : Event) (h : timerInv st) :
    timerInv (step st ev) := by
  cases ev with
  | userStart now nowMs =>
    unfold timerInv at h
    cases hId : st.simulatorIntervalId with
    | some i =>
      rw [hId] at h
      unfold step startSession startSimulator resetChart clearAlert timerInv
      simp [hId, h]
    | none =>
      rw [hId] at h
      unfold step startSession startSimulator resetChart clearAlert timerInv
      simp [hId, h]
  | userStop e =>
    unfold timerInv at h
    cases hId : st.simulatorIntervalId with
    | some i =>
      rw [hId] at h
      unfold step stopSession stopSimulator timerInv
      simp [hId, h]
    | none =>
      rw [hId] at h
      unfold step stopSession stopSimulator timerInv
      simp [hId, h]
  | tick r now nowMs =>
    unfold timerInv at h ⊢
    unfold step
    rw [simulatorTick_liveTimers, simulatorTick_simulatorIntervalId]
    exact h
  | sensor raw now =>
    unfold timerInv at h ⊢
    simp only [step]
    by_cases hA : st.isSessionActive = true
    · rw [if_pos hA, processSensorData_liveTimers, processSensorData_simulatorIntervalId]
      exact h
    · rw [if_neg hA]
      exact h

/-- The invariant holds in every reachable state. -/
lemma runEvents_timerInv (evs : List Event) : timerInv (runEvents evs) := by
  unfold runEvents
  have haux : ∀ (l : List Event) (st : DashState), timerInv st → timerInv (l.foldl step st) := by
    intro l
    induction l with
    | nil => intro st h; exact h
    | cons e es ih => intro st h; exact ih _ (step_timerInv st e h)
  exact haux evs initState (by unfold timerInv initState; rfl)

/-- C10: in every reachable state at most one generator tick timer is
scheduled; `stop()` always leaves zero scheduled timers; and starting a
session while a timer is already scheduled schedules no second one. -/
theorem timer_single_scheduled (evs : List Event) (e now nowMs : Nat) :
    (runEvents evs).liveTimers.length ≤ 1 ∧
    (stopSession (runEvents evs) e).liveTimers = [] ∧
    ((runEvents evs).simulatorIntervalId.isSome = true →
      (startSession (runEvents evs) now nowMs).liveTimers = (runEvents evs).liveTimers) := by
  have h := runEvents_timerInv evs
  unfold timerInv at h
  refine ⟨?_, ?_, ?_⟩
  · rw [h]
    cases (runEvents evs).simulatorIntervalId <;> simp
  · unfold stopSession stopSimulator
    cases hId : (runEvents evs).simulatorIntervalId with
    | some i =>
      rw [hId] at h
      simp [hId, h]
    | none =>
      rw [hId] at h
      simp [hId, h]
  · intro hs
    unfold startSession startSimulator resetChart clearAlert
    simp [hs]

/-- Witness for C10 after a concrete start event: one timer live, a stop
clears it, and a second start adds none. -/
theorem timer_single_scheduled_witness :
    (runEvents [Event.userStart 0 0]).liveTimers.length ≤ 1 ∧
    (stopSession (runEvents [Event.userStart 0 0]) 5).liveTimers = [] ∧
    (startSession (runEvents [Event.userStart 0 0]) 9 9).liveTimers
      = (runEvents [Event.userStart 0 0]).liveTimers :=
  ⟨(timer_single_scheduled [Event.userStart 0 0] 5 9 9).1,
   (timer_single_scheduled [Event.userStart 0 0] 5 9 9).2.1,
   (timer_single_scheduled [Event.userStart 0 0] 5 9 9).2.2 (by decide)⟩

end Dashboard
